import Mathlib

/-!
Shallow embedding of the three HTTP services in `src/backend`:
`api_youtube.py` (yt-dlp based), `flsfls;fs.py` (pytube based) and
`check.py` (rutube based).

The external extraction libraries are opaque black boxes, so their outcomes
enter the model as parameters: the one blocking library call each handler
makes is an `Except` value (success payload or raised-exception text), and
auxiliary library calls (filename templating, the filtered pytube stream
chain) are plain function or list parameters.

Exceptions are modelled explicitly.  `HTTPException` mirrors
`fastapi.HTTPException`; `PyExc` distinguishes an HTTP exception from every
other Python exception, because the services' `except` clauses distinguish
exactly these.  Python renders a caught exception `e` with `str(e)`;
starlette renders an `HTTPException` as its status code, a colon-space, and
the detail text, which `HTTPException.str` mirrors.
-/

set_option autoImplicit false

/-- Mirror of `fastapi.HTTPException`: an HTTP status code plus a `detail`
message that FastAPI serialises as the error body. -/
structure HTTPException where
  status : Nat
  detail : String
deriving DecidableEq

/-- Python `str(e)` of an `HTTPException` (starlette renders the status code,
then a colon and a space, then the detail). -/
def HTTPException.str (e : HTTPException) : String :=
  toString e.status ++ ": " ++ e.detail

/-- A Python exception as the services' `except` clauses see it: either a
`fastapi.HTTPException`, or any other exception carrying its `str(e)` text. -/
inductive PyExc where
  | http : HTTPException → PyExc
  | other : String → PyExc
deriving DecidableEq

/-- Python `str(e)` of a caught exception. -/
def PyExc.str : PyExc → String
  | .http e => e.str
  | .other m => m

/-- The HTTP response an endpoint produces: a 200 success body, or an error
status with a JSON `detail` message. -/
inductive Response (α : Type) where
  | ok : α → Response α
  | error : Nat → String → Response α
deriving DecidableEq

/-- Status code of a response (FastAPI uses 200 on the success path). -/
def Response.statusCode {α : Type} : Response α → Nat
  | .ok _ => 200
  | .error s _ => s

/-- The `detail` string of an error response, if the response is an error. -/
def Response.detail? {α : Type} : Response α → Option String
  | .ok _ => none
  | .error _ d => some d

namespace Ytdlp

/-- One entry of the `formats` list of a yt-dlp `info_dict`.  A field is
`none` when the corresponding dictionary key is absent, in which case
`dict.get` yields its default. -/
structure YFormat where
  format_id : Option String
  ext : Option String
  url : Option String
  resolution : Option String
  width : Option Int
  height : Option Int
  vcodec : Option String
  acodec : Option String
  filesize : Option Int
  filesize_approx : Option Int
  format_note : Option String
  fps : Option Int
  abr : Option Float
  tbr : Option Float

/-- The yt-dlp `info_dict` returned by `extract_info`, restricted to the keys
the service reads.  `formats = none` models an `info_dict` without a
`formats` key. -/
structure YInfo where
  formats : Option (List YFormat)
  format_id : Option String
  url : Option String
  ext : Option String
  title : Option String
  thumbnail : Option String
  duration : Option Int
  uploader : Option String
  description : Option String

/-- Exceptions the yt-dlp `extract_info` call can raise:
`yt_dlp.utils.DownloadError`, or any other exception. -/
inductive LibErr where
  | downloadError : String → LibErr
  | exc : String → LibErr

/-- The pydantic `VideoFormatInfo` model of `api_youtube.py`. -/
structure VideoFormatInfo where
  itag : String
  resolution : Option String
  vcodec : Option String
  acodec : Option String
  ext : String
  filesize : Option Int
  format_note : Option String
  fps : Option Int
  abr : Option Float
  tbr : Option Float

/-- The pydantic `VideoDetails` model of `api_youtube.py`. -/
structure VideoDetails where
  title : String
  thumbnail_url : String
  duration : Int
  uploader : Option String
  description : Option String
  available_formats : List VideoFormatInfo

/-- The pydantic `DownloadResponse` model of `api_youtube.py`. -/
structure DownloadResponse where
  message : String
  direct_download_url : Option String
  filename : Option String

/-- The dictionary `return {"url": ..., "filename": ...}` produced by
`get_download_link_blocking` on success. -/
structure DLResult where
  url : String
  filename : String

/-- `fetch_video_info_blocking` (`api_youtube.py` lines 78-117): passes a
successful `extract_info` result through, converts a `DownloadError` and any
other exception into an `HTTPException` with status 500. -/
def fetch_video_info_blocking (lib : Except LibErr YInfo) : Except HTTPException YInfo :=
  match lib with
  | .ok info => .ok info
  | .error (.downloadError m) =>
      .error ⟨500, "Ошибка при получении информации от YouTube: " ++ m⟩
  | .error (.exc m) =>
      .error ⟨500, "Непредвиденная ошибка сервера при обработке URL: " ++ m⟩

/-- Projection of a format dictionary (either a `formats` entry or the
top-level `info_dict` itself) to the keys the link resolution reads. -/
structure SelFmt where
  format_id : Option String
  ext : Option String
  url : Option String
deriving DecidableEq

/-- View a `formats` entry as a selection candidate. -/
def YFormat.sel (f : YFormat) : SelFmt := ⟨f.format_id, f.ext, f.url⟩

/-- View the top-level `info_dict` as a selection candidate (the fallback
branch assigns `selected_format_info = info`). -/
def YInfo.sel (i : YInfo) : SelFmt := ⟨i.format_id, i.ext, i.url⟩

/-- The `for f in info['formats']` loop of `get_download_link_blocking` with
its `break`: the first entry whose `format_id` equals the requested itag. -/
def findFormat : List YFormat → String → Option YFormat
  | [], _ => none
  | f :: rest, itag => if f.format_id = some itag then some f else findFormat rest itag

/-- Format resolution of `get_download_link_blocking` (`api_youtube.py`
lines 150-161): scan `info['formats']` for an exact `format_id` match,
falling back to the top-level `info` dict when no list entry matched.
A missing `formats` key skips the loop, like the `'formats' in info` guard. -/
def selectFormat (info : YInfo) (itag : String) : Option SelFmt :=
  match findFormat (info.formats.getD []) itag with
  | some f => some f.sel
  | none => if info.format_id = some itag then some info.sel else none

/-- Filename construction of `get_download_link_blocking` (lines 167-170):
keep the templated name if it contains a dot, otherwise rebuild it from the
title (default `video`) and the selected format's extension (default
`mp4`).  Python's `not in` check on the filename is membership of the dot
character, modelled on the string's character list. -/
def buildFilename (info : YInfo) (f : SelFmt) (templated : String) : String :=
  if templated.data.contains '.' then templated
  else (info.title.getD "video") ++ "." ++ (f.ext.getD "mp4")

/-- Detail text of the 404 raised when no matching format with a URL was
found (line 178-179). -/
def detail404 (itag : String) : String :=
  "Не удалось получить ссылку на скачивание для формата " ++ itag ++
    ". Возможно, формат не доступен или требует дополнительной обработки."

/-- Detail text the generic `except Exception` clause of
`get_download_link_blocking` produces (line 188). -/
def unexpectedLinkMsg (m : String) : String :=
  "Непредвиденная ошибка сервера при получении ссылки: " ++ m

/-- Body of the `try` block of `get_download_link_blocking` after the
`extract_info` call succeeded (lines 150-179): resolve the format, read its
URL, build the filename, or raise the 404. -/
def linkInner (prep : YInfo → String) (info : YInfo) (itag : String) :
    Except HTTPException DLResult :=
  match selectFormat info itag with
  | some f =>
      match f.url with
      | some u => .ok ⟨u, buildFilename info f (prep info)⟩
      | none => .error ⟨404, detail404 itag⟩
  | none => .error ⟨404, detail404 itag⟩

/-- `get_download_link_blocking` (`api_youtube.py` lines 120-188).  `prep`
models the library call `ydl.prepare_filename(info, outtmpl=...)`.  Note
that the 404 raised inside the `try` block is itself an `Exception`, so the
function's own `except Exception` clause catches it and re-raises it as a
500 whose detail embeds `str(e)` of the 404. -/
def get_download_link_blocking (prep : YInfo → String) (lib : Except LibErr YInfo)
    (itag : String) : Except HTTPException DLResult :=
  match lib with
  | .error (.downloadError m) =>
      .error ⟨500, "Ошибка yt-dlp при получении ссылки на скачивание: " ++ m⟩
  | .error (.exc m) => .error ⟨500, unexpectedLinkMsg m⟩
  | .ok info =>
      match linkInner prep info itag with
      | .ok r => .ok r
      | .error e => .error ⟨500, unexpectedLinkMsg e.str⟩

/-- Python truthiness-respecting `x or y` on optional integers, modelling
`f.get('filesize') or f.get('filesize_approx')`: both `None` and `0` are
falsy, so a zero first operand falls through to the second. -/
def pyOrInt (a b : Option Int) : Option Int :=
  match a with
  | some v => if v = 0 then b else some v
  | none => b

/-- The `resolution` value of a shaped format entry (line 217-218):
`f.get('resolution', f.get('width') and f.get('height') and str)`.  Python's
`and` chain yields the formatted string only when both `width` and `height`
are present and truthy; a falsy (zero) operand would be passed through as
the integer itself, a corner this model folds into `none`. -/
def pyResolution (f : YFormat) : Option String :=
  match f.resolution with
  | some r => some r
  | none =>
      match f.width, f.height with
      | some w, some h =>
          if w ≠ 0 ∧ h ≠ 0 then some (toString w ++ "x" ++ toString h) else none
      | _, _ => none

/-- Shaping of one `formats` entry into `VideoFormatInfo`
(`api_youtube.py` lines 215-227). -/
def shapeFormat (f : YFormat) : VideoFormatInfo :=
  { itag := f.format_id.getD "N/A"
    resolution := pyResolution f
    vcodec := f.vcodec
    acodec := f.acodec
    ext := f.ext.getD "N/A"
    filesize := pyOrInt f.filesize f.filesize_approx
    format_note := f.format_note
    fps := f.fps
    abr := f.abr
    tbr := f.tbr }

/-- The `formats_info` list the endpoint accumulates (lines 206-227): every
entry of `info['formats']` shaped, with no filtering. -/
def shapedFormats (info : YInfo) : List VideoFormatInfo :=
  (info.formats.getD []).map shapeFormat

/-- Detail text of the 404 raised when the shaped format list is empty
(lines 235-236). -/
def detailNoFormats : String :=
  "Не удалось извлечь доступные форматы для этого видео. Возможно, видео недоступно или защищено."

/-- Body of the `try` block of the `/api/video-info` endpoint (lines
202-245): run the blocking fetch, shape the formats, raise a 404 on an empty
list, otherwise build the `VideoDetails` with its placeholder defaults. -/
def infoTryBody (lib : Except LibErr YInfo) : Except PyExc VideoDetails :=
  match fetch_video_info_blocking lib with
  | .error e => .error (.http e)
  | .ok info =>
      if (shapedFormats info).isEmpty then .error (.http ⟨404, detailNoFormats⟩)
      else
        .ok { title := info.title.getD "Без названия"
              thumbnail_url := info.thumbnail.getD ""
              duration := info.duration.getD 0
              uploader := info.uploader
              description := info.description
              available_formats := shapedFormats info }

/-- The `/api/video-info` endpoint of `api_youtube.py` (lines 193-250): empty
`url` is rejected with a 400 before the `try` block; at the endpoint
boundary an `HTTPException` is re-raised unchanged and any other exception
becomes a generic 500. -/
def get_video_information (lib : Except LibErr YInfo) (url : String) :
    Response VideoDetails :=
  if url = "" then .error 400 "Параметр \x27url\x27 не может быть пустым."
  else
    match infoTryBody lib with
    | .ok v => .ok v
    | .error (.http e) => .error e.status e.detail
    | .error (.other m) =>
        .error 500 ("Внутренняя ошибка сервера при обработке вашего запроса: " ++ m)

/-- Body of the `try` block of the `/api/download-link` endpoint (lines
264-282).  The result dictionary of `get_download_link_blocking` always
carries both the `url` and `filename` keys, so the success check on the
returned dictionary always passes. -/
def linkTryBody (prep : YInfo → String) (lib : Except LibErr YInfo) (itag : String) :
    Except PyExc DownloadResponse :=
  match get_download_link_blocking prep lib itag with
  | .error e => .error (.http e)
  | .ok r =>
      .ok { message := "Ссылка на скачивание успешно получена."
            direct_download_url := some r.url
            filename := some r.filename }

/-- The `/api/download-link` endpoint of `api_youtube.py` (lines 253-290):
empty `url` or `itag` is rejected with a 400 before the `try` block; at the
endpoint boundary an `HTTPException` is re-raised unchanged and any other
exception becomes a generic 500. -/
def get_download_link (prep : YInfo → String) (lib : Except LibErr YInfo)
    (url itag : String) : Response DownloadResponse :=
  if url = "" ∨ itag = "" then
    .error 400 "Параметры \x27url\x27 и \x27itag\x27 обязательны."
  else
    match linkTryBody prep lib itag with
    | .ok v => .ok v
    | .error (.http e) => .error e.status e.detail
    | .error (.other m) =>
        .error 500 ("Внутренняя ошибка сервера при получении ссылки на скачивание: " ++ m)

end Ytdlp

namespace Pytube

/-- A pytube stream object, restricted to the attributes the service reads.
pytube itags are integers; `resolution` and `abr` are `None` for streams
without video or audio respectively. -/
structure PyStream where
  itag : Int
  resolution : Option String
  mime_type : Option String
  filesize : Int
  abr : Option String
  url : String
  subtype : String

/-- A pytube `YouTube` object, restricted to what the service reads.
`streams` is the full `yt.streams` query; `progMp4Desc` is the output of the
opaque library chain
`yt.streams.filter(progressive=True, file_extension=mp4).order_by(resolution).desc()`. -/
structure YouTube where
  title : String
  thumbnail_url : String
  length : Int
  streams : List PyStream
  progMp4Desc : List PyStream

/-- The pydantic `VideoFormatInfo` model of the pytube service. -/
structure VideoFormatInfo where
  itag : String
  resolution : Option String
  mime_type : Option String
  filesize : Int
  abr : Option String

/-- The pydantic `VideoDetails` model of the pytube service. -/
structure VideoDetails where
  title : String
  thumbnail_url : String
  duration : Int
  available_formats : List VideoFormatInfo

/-- The pydantic `DownloadLink` model of the pytube service. -/
structure DownloadLink where
  download_url : String
  filename : String

/-- Shaping of one stream into `VideoFormatInfo` (lines 69-75 of the pytube
service); `str(stream.itag)` renders the integer itag. -/
def shapeStream (s : PyStream) : VideoFormatInfo :=
  ⟨toString s.itag, s.resolution, s.mime_type, s.filesize, s.abr⟩

/-- The `formats_info` list the pytube video-info endpoint accumulates:
every stream surfaced by the filtered library chain, shaped. -/
def shapedFormats (yt : YouTube) : List VideoFormatInfo :=
  yt.progMp4Desc.map shapeStream

/-- The `except Exception` clause both pytube endpoints end with: every
exception, `HTTPException` included, becomes a 500 whose detail embeds
`str(e)`. -/
def catchAll {α : Type} (msgHead : String) : Except PyExc α → Response α
  | .ok v => .ok v
  | .error e => .error 500 (msgHead ++ e.str)

/-- Body of the `try` block of the pytube `/api/video-info` endpoint (lines
62-88): construct the `YouTube` object (which may raise), shape the filtered
streams, raise a 404 on an empty list, otherwise build the details. -/
def infoTryBody (lib : Except String YouTube) : Except PyExc VideoDetails :=
  match lib with
  | .error m => .error (.other m)
  | .ok yt =>
      if (shapedFormats yt).isEmpty then
        .error (.http ⟨404, "Подходящие форматы MP4 не найдены для этого видео."⟩)
      else .ok ⟨yt.title, yt.thumbnail_url, yt.length, shapedFormats yt⟩

/-- The pytube `/api/video-info` endpoint (lines 54-92).  There is no
`except HTTPException` clause, so the 404 raised inside the `try` block is
caught by `except Exception` and re-raised as a 500. -/
def get_video_information (lib : Except String YouTube) (url : String) :
    Response VideoDetails :=
  if url = "" then .error 400 "URL параметр не может быть пустым."
  else catchAll "Ошибка сервера при обработке URL: " (infoTryBody lib)

/-- Whitespace Python's `int()` strips from both ends of its argument
(restricted to the common ASCII whitespace characters). -/
def pyIsSpace (c : Char) : Bool :=
  c == ' ' || c == '\t' || c == '\n' || c == '\r' || c == '\x0b' || c == '\x0c'

/-- Digits of an integer literal after its first character: decimal digits
with single underscores allowed between digits. -/
def pyIntRest : List Char → Bool
  | [] => true
  | c :: cs =>
      if c == '_' then
        match cs with
        | [] => false
        | d :: cs2 => d.isDigit && pyIntRest cs2
      else c.isDigit && pyIntRest cs

/-- A non-empty run of decimal digits with single underscores between
digits, as Python's `int()` accepts. -/
def pyIntDigits : List Char → Bool
  | [] => false
  | c :: cs => c.isDigit && pyIntRest cs

/-- Numeric value of a digit run, skipping underscore separators. -/
def digitsValAux (acc : Nat) : List Char → Nat
  | [] => acc
  | c :: cs =>
      if c == '_' then digitsValAux acc cs
      else digitsValAux (acc * 10 + (c.toNat - 48)) cs

/-- Python's `int(s)` on a string: strip surrounding whitespace, allow an
optional sign, then require digits (with underscore separators); `none`
models the `ValueError` raised on anything else. -/
def pyInt (s : String) : Option Int :=
  let cs := s.data.dropWhile pyIsSpace
  let cs := (cs.reverse.dropWhile pyIsSpace).reverse
  match cs with
  | '+' :: rest =>
      if pyIntDigits rest then some (Int.ofNat (digitsValAux 0 rest)) else none
  | '-' :: rest =>
      if pyIntDigits rest then some (-(Int.ofNat (digitsValAux 0 rest))) else none
  | rest =>
      if pyIntDigits rest then some (Int.ofNat (digitsValAux 0 rest)) else none

/-- The `ValueError` message `int()` raises on a non-numeric literal. -/
def valueErrorMsg (s : String) : String :=
  "invalid literal for int() with base 10: \x27" ++ s ++ "\x27"

/-- Python `str(x)` of an optional string: `None` renders as the literal
text `None` inside an f-string. -/
def pyStr : Option String → String
  | some s => s
  | none => "None"

/-- Python truthiness-respecting `x or y` on optional strings rendered into
an f-string (`stream.resolution or stream.abr`): an absent or empty first
operand falls through to `str` of the second. -/
def pyOrStr (a b : Option String) : String :=
  match a with
  | some s => if s = "" then pyStr b else s
  | none => pyStr b

/-- `yt.streams.get_by_itag(n)`: the stream with the matching integer itag,
if any (pytube's documented lookup by itag). -/
def get_by_itag (yt : YouTube) (n : Int) : Option PyStream :=
  yt.streams.find? (fun s => s.itag == n)

/-- Body of the `try` block of the pytube `/api/download-link` endpoint
(lines 102-113): construct the `YouTube` object, parse the itag with
`int(itag)` (raising `ValueError` on a non-numeric string), look the stream
up, raise a 404 when absent, otherwise build the link and filename. -/
def linkTryBody (lib : Except String YouTube) (itag : String) :
    Except PyExc DownloadLink :=
  match lib with
  | .error m => .error (.other m)
  | .ok yt =>
      match pyInt itag with
      | none => .error (.other (valueErrorMsg itag))
      | some n =>
          match get_by_itag yt n with
          | none =>
              .error (.http ⟨404, "Формат с itag \x27" ++ itag ++ "\x27 не найден для этого видео."⟩)
          | some s =>
              .ok ⟨s.url,
                (yt.title.replace " " "_") ++ "_" ++ pyOrStr s.resolution s.abr ++ "." ++ s.subtype⟩

/-- The pytube `/api/download-link` endpoint (lines 95-116).  There is no
`except HTTPException` clause, so the 404 raised inside the `try` block is
caught by `except Exception` and re-raised as a 500. -/
def get_download_link (lib : Except String YouTube) (url itag : String) :
    Response DownloadLink :=
  if url = "" ∨ itag = "" then
    .error 400 "Параметры \x27url\x27 и \x27itag\x27 не могут быть пустыми."
  else catchAll "Ошибка сервера при получении ссылки: " (linkTryBody lib itag)

end Pytube

namespace Rutube

/-- The observable effect of one request to the rutube `/api/video_info`
endpoint: which on-disk path is written with the downloaded bytes, and which
path, filename and media type the `FileResponse` serves. -/
structure RutubeFileResponse where
  writtenPath : String
  writtenContent : String
  servedPath : String
  servedFilename : String
  mediaTypeStr : String
deriving DecidableEq

/-- The rutube `/api/video_info` endpoint (`check.py` lines 19-25).  `lib`
models `Rutube(video_url).get_best().download(...)`: the bytes the library
streams for a URL, or the text of the exception it raises.  The handler has
no validation and no `try` block, so a library exception propagates to the
framework, which answers with a plain 500; on success the stream is written
to the fixed path `video.mp4` and served from that same path. -/
def get_video_info (lib : String → Except String String) (video_url : String) :
    Response RutubeFileResponse :=
  match lib video_url with
  | .error _ => .error 500 "Internal Server Error"
  | .ok content =>
      .ok { writtenPath := "video.mp4"
            writtenContent := content
            servedPath := "video.mp4"
            servedFilename := "video.mp4"
            mediaTypeStr := "video/mp4" }

end Rutube

namespace Ytdlp

/-- A concrete `formats` entry used to evaluate the endpoints. -/
def fmt137 : YFormat :=
  { format_id := some "137", ext := some "mp4", url := some "https://cdn.example/v137"
    resolution := none, width := none, height := none
    vcodec := some "avc1.640028", acodec := some "none"
    filesize := some 1000, filesize_approx := none
    format_note := none, fps := none, abr := none, tbr := none }

/-- A concrete `info_dict` with one format, used to evaluate the endpoints. -/
def demoInfo : YInfo :=
  { formats := some [fmt137], format_id := some "137"
    url := some "https://cdn.example/v137", ext := some "mp4"
    title := some "DemoVideo", thumbnail := some "https://img.example/t.jpg"
    duration := some 10, uploader := none, description := none }

/-- `demoInfo` with an empty `formats` list. -/
def demoInfoNoFormats : YInfo := { demoInfo with formats := some [] }

/-- `demoInfo` without a `formats` key at all. -/
def demoInfoNoKey : YInfo := { demoInfo with formats := none }

/-- An `info_dict` with every optional key the shaping defaults absent, and
one equally bare format entry. -/
def bareFmt : YFormat :=
  { format_id := none, ext := none, url := some "https://cdn.example/bare"
    resolution := none, width := none, height := none
    vcodec := none, acodec := none
    filesize := none, filesize_approx := none
    format_note := none, fps := none, abr := none, tbr := none }

/-- An `info_dict` whose `title`, `thumbnail` and `duration` keys are all
absent, carrying the single bare format entry. -/
def bareInfo : YInfo :=
  { formats := some [bareFmt], format_id := none
    url := none, ext := none
    title := none, thumbnail := none
    duration := none, uploader := none, description := none }

/-- A concrete stand-in for `ydl.prepare_filename` used in evaluations. -/
def prepDemo : YInfo → String := fun _ => "DemoVideo.mp4"

/-- A templating stand-in whose output lacks a dot, exercising the rebuild
branch of the filename construction. -/
def prepNoDot : YInfo → String := fun _ => "DemoVideo"

end Ytdlp

namespace Pytube

/-- A concrete progressive mp4 stream used to evaluate the endpoints. -/
def stream22 : PyStream :=
  { itag := 22, resolution := some "720p", mime_type := some "video/mp4"
    filesize := 5000, abr := none, url := "https://cdn.example/s22", subtype := "mp4" }

/-- A concrete `YouTube` object with one progressive mp4 stream. -/
def demoYt : YouTube :=
  { title := "Demo Clip", thumbnail_url := "https://img.example/p.jpg"
    length := 12, streams := [stream22], progMp4Desc := [stream22] }

/-- `demoYt` with no progressive mp4 streams surfaced by the filter chain. -/
def demoYtNoMp4 : YouTube := { demoYt with progMp4Desc := [] }

end Pytube

/-- The `for`-loop with `break` finds exactly the first list entry whose
`format_id` matches. -/
theorem Ytdlp.findFormat_eq_find? (fs : List Ytdlp.YFormat) (itag : String) :
    Ytdlp.findFormat fs itag = fs.find? (fun f => decide (f.format_id = some itag)) := by
  induction fs with
  | nil => rfl
  | cons f rest ih =>
      by_cases h : f.format_id = some itag
      · simp [Ytdlp.findFormat, List.find?, h]
      · simp [Ytdlp.findFormat, List.find?, h, ih]

/-- C1: for every library result, `get_download_link_blocking` resolves the
requested itag by scanning the result's `formats` list in order for an entry
whose `format_id` equals the itag exactly, and only when no list entry
matches does it compare the top-level result's own `format_id`; any other
outcome is no selection at all, so no fuzzy or closest-format matching is
ever performed. -/
theorem C1_link_resolution_policy (info : Ytdlp.YInfo) (itag : String) :
    Ytdlp.selectFormat info itag =
      match (info.formats.getD []).find? (fun f => decide (f.format_id = some itag)) with
      | some f => some f.sel
      | none =>
          if info.format_id = some itag then some info.sel else none := by
  unfold Ytdlp.selectFormat
  rw [Ytdlp.findFormat_eq_find?]

/-- C2 (evaluation at the failing inputs): the yt-dlp video-info endpoint
does re-raise its internal 404 unchanged, but the yt-dlp download-link path
and both pytube endpoints re-wrap an internal `HTTPException` 404 into a
generic 500, because the 404 is raised inside a `try` block whose
`except Exception` clause catches it before any endpoint-level re-raise. -/
theorem C2_httpexception_rewrapped_to_500 :
    Ytdlp.get_video_information (.ok Ytdlp.demoInfoNoFormats) "https://youtu.be/a"
        = .error 404 Ytdlp.detailNoFormats
    ∧ Ytdlp.get_download_link Ytdlp.prepDemo (.ok Ytdlp.demoInfo) "https://youtu.be/a" "999"
        = .error 500 (Ytdlp.unexpectedLinkMsg ("404: " ++ Ytdlp.detail404 "999"))
    ∧ (Pytube.get_video_information (.ok Pytube.demoYtNoMp4) "https://youtu.be/a").statusCode
        = 500
    ∧ (Pytube.get_download_link (.ok Pytube.demoYt) "https://youtu.be/a" "999").statusCode
        = 500 :=
  ⟨rfl, rfl, rfl, rfl⟩

/-- C3 (evaluation at the failing input): with a successful library call
yielding zero shaped formats, the yt-dlp video-info endpoint answers 404 as
claimed, but the pytube video-info endpoint wraps its internal 404 into a
500. -/
theorem C3_zero_formats_status :
    Ytdlp.get_video_information (.ok Ytdlp.demoInfoNoKey) "https://youtu.be/b"
        = .error 404 Ytdlp.detailNoFormats
    ∧ Pytube.get_video_information (.ok Pytube.demoYtNoMp4) "https://youtu.be/b"
        = .error 500
            "Ошибка сервера при обработке URL: 404: Подходящие форматы MP4 не найдены для этого видео." :=
  ⟨rfl, rfl⟩

/-- C4 (evaluation at the failing input): with a URL the library resolves
but an itag matching no format, both download-link endpoints answer 500 (the
internal 404 is swallowed by a generic `except Exception`), not the claimed
404. -/
theorem C4_unresolvable_itag_status :
    Ytdlp.get_download_link Ytdlp.prepDemo (.ok Ytdlp.demoInfo) "https://youtu.be/c" "251"
        = .error 500 (Ytdlp.unexpectedLinkMsg ("404: " ++ Ytdlp.detail404 "251"))
    ∧ Pytube.get_download_link (.ok Pytube.demoYt) "https://youtu.be/c" "251"
        = .error 500
            "Ошибка сервера при получении ссылки: 404: Формат с itag \x27251\x27 не найден для этого видео." :=
  ⟨rfl, rfl⟩

/-- A successful yt-dlp library call with a non-empty shaped format list
makes the video-info `try` body succeed with exactly the shaped details. -/
theorem Ytdlp.ytdlpInfoBody_eq_ok (info : Ytdlp.YInfo)
    (hne : Ytdlp.shapedFormats info ≠ []) :
    Ytdlp.infoTryBody (.ok info) =
      .ok { title := info.title.getD "Без названия"
            thumbnail_url := info.thumbnail.getD ""
            duration := info.duration.getD 0
            uploader := info.uploader
            description := info.description
            available_formats := Ytdlp.shapedFormats info } := by
  simp only [Ytdlp.infoTryBody, Ytdlp.fetch_video_info_blocking]
  rw [if_neg (by simpa using hne)]

/-- A successful pytube library call with a non-empty shaped stream list
makes the video-info `try` body succeed with exactly the shaped details. -/
theorem Pytube.pytubeInfoBody_eq_ok (yt : Pytube.YouTube)
    (hne : Pytube.shapedFormats yt ≠ []) :
    Pytube.infoTryBody (.ok yt) =
      .ok ⟨yt.title, yt.thumbnail_url, yt.length, Pytube.shapedFormats yt⟩ := by
  simp only [Pytube.infoTryBody]
  rw [if_neg (by simpa using hne)]

/-- A successful yt-dlp video-info body always carries a non-empty shaped
format list. -/
theorem Ytdlp.ytdlpInfoBody_nonempty {lib : Except Ytdlp.LibErr Ytdlp.YInfo}
    {v : Ytdlp.VideoDetails} (h : Ytdlp.infoTryBody lib = .ok v) :
    v.available_formats ≠ [] := by
  unfold Ytdlp.infoTryBody at h
  split at h
  · simp at h
  · split at h
    · simp at h
    · rename_i hni
      injection h with h2
      subst h2
      simpa using hni

/-- A successful pytube video-info body always carries a non-empty shaped
format list. -/
theorem Pytube.pytubeInfoBody_nonempty {lib : Except String Pytube.YouTube}
    {v : Pytube.VideoDetails} (h : Pytube.infoTryBody lib = .ok v) :
    v.available_formats ≠ [] := by
  unfold Pytube.infoTryBody at h
  split at h
  · simp at h
  · split at h
    · simp at h
    · rename_i hni
      injection h with h2
      subst h2
      simpa using hni

/-- A 200 answer of the yt-dlp video-info endpoint carries a non-empty
format list. -/
theorem Ytdlp.ytdlpInfoOk_nonempty {lib : Except Ytdlp.LibErr Ytdlp.YInfo} {u : String}
    {d : Ytdlp.VideoDetails} (h : Ytdlp.get_video_information lib u = .ok d) :
    d.available_formats ≠ [] := by
  unfold Ytdlp.get_video_information at h
  split at h
  · simp at h
  · split at h
    · rename_i v hv
      injection h with h2
      subst h2
      exact Ytdlp.ytdlpInfoBody_nonempty hv
    · simp at h
    · simp at h

/-- A 200 answer of the pytube video-info endpoint carries a non-empty
format list. -/
theorem Pytube.pytubeInfoOk_nonempty {lib : Except String Pytube.YouTube} {u : String}
    {d : Pytube.VideoDetails} (h : Pytube.get_video_information lib u = .ok d) :
    d.available_formats ≠ [] := by
  unfold Pytube.get_video_information Pytube.catchAll at h
  split at h
  · simp at h
  · split at h
    · rename_i v hv
      injection h with h2
      subst h2
      exact Pytube.pytubeInfoBody_nonempty hv
    · simp at h

/-- C5: when the library surfaces at least one format, the video-info 200
response has exactly one `available_formats` entry per surfaced format (the
full `formats` list in the yt-dlp service, the filtered progressive-mp4
stream chain in the pytube service), and a 200 response never carries an
empty list in either service. -/
theorem C5_shaped_format_counts (info : Ytdlp.YInfo) (fs : List Ytdlp.YFormat)
    (yt : Pytube.YouTube) (url : String)
    (hu : url ≠ "") (hf : info.formats = some fs) (hfs : fs ≠ [])
    (hp : yt.progMp4Desc ≠ []) :
    (∃ d, Ytdlp.get_video_information (.ok info) url = .ok d
        ∧ d.available_formats.length = fs.length)
    ∧ (∃ d, Pytube.get_video_information (.ok yt) url = .ok d
        ∧ d.available_formats.length = yt.progMp4Desc.length)
    ∧ (∀ lib u d, Ytdlp.get_video_information lib u = .ok d → d.available_formats ≠ [])
    ∧ (∀ lib u d, Pytube.get_video_information lib u = .ok d → d.available_formats ≠ []) := by
  have hne1 : Ytdlp.shapedFormats info ≠ [] := by
    simpa [Ytdlp.shapedFormats, hf] using hfs
  have hne2 : Pytube.shapedFormats yt ≠ [] := by
    simpa [Pytube.shapedFormats] using hp
  refine ⟨⟨{ title := info.title.getD "Без названия"
             thumbnail_url := info.thumbnail.getD ""
             duration := info.duration.getD 0
             uploader := info.uploader
             description := info.description
             available_formats := Ytdlp.shapedFormats info }, ?_, ?_⟩,
    ⟨⟨yt.title, yt.thumbnail_url, yt.length, Pytube.shapedFormats yt⟩, ?_, ?_⟩, ?_, ?_⟩
  · unfold Ytdlp.get_video_information
    rw [if_neg hu, Ytdlp.ytdlpInfoBody_eq_ok info hne1]
  · simp [Ytdlp.shapedFormats, hf]
  · unfold Pytube.get_video_information Pytube.catchAll
    rw [if_neg hu, Pytube.pytubeInfoBody_eq_ok yt hne2]
  · simp [Pytube.shapedFormats]
  · intro lib u d h
    exact Ytdlp.ytdlpInfoOk_nonempty h
  · intro lib u d h
    exact Pytube.pytubeInfoOk_nonempty h

/-- C5 witness: the hypotheses hold at a concrete one-format input. -/
theorem C5_shaped_format_counts_witness :
    ("https://youtu.be/w" ≠ "" ∧ Ytdlp.demoInfo.formats = some [Ytdlp.fmt137]
      ∧ [Ytdlp.fmt137] ≠ ([] : List Ytdlp.YFormat) ∧ Pytube.demoYt.progMp4Desc ≠ [])
    ∧ ((∃ d, Ytdlp.get_video_information (.ok Ytdlp.demoInfo) "https://youtu.be/w" = .ok d
          ∧ d.available_formats.length = [Ytdlp.fmt137].length)
      ∧ (∃ d, Pytube.get_video_information (.ok Pytube.demoYt) "https://youtu.be/w" = .ok d
          ∧ d.available_formats.length = Pytube.demoYt.progMp4Desc.length)
      ∧ (∀ lib u d, Ytdlp.get_video_information lib u = .ok d → d.available_formats ≠ [])
      ∧ (∀ lib u d, Pytube.get_video_information lib u = .ok d → d.available_formats ≠ [])) :=
  ⟨⟨by decide, rfl, by simp, by simp [Pytube.demoYt]⟩,
    C5_shaped_format_counts Ytdlp.demoInfo [Ytdlp.fmt137] Pytube.demoYt "https://youtu.be/w"
      (by decide) rfl (by simp) (by simp [Pytube.demoYt])⟩

/-- C6: on every successful download-link resolution the filename is the
library's templated name when that name contains a dot; otherwise it is
rebuilt from the title (default `video`) and the selected format's container
extension, with the fixed fallback `mp4` when the format specifies none, so
the rebuilt filename carries the extension as a dot-suffix. -/
theorem C6_filename_construction (prep : Ytdlp.YInfo → String) (info : Ytdlp.YInfo)
    (itag : String) (r : Ytdlp.DLResult)
    (h : Ytdlp.get_download_link_blocking prep (.ok info) itag = .ok r) :
    ∃ f, Ytdlp.selectFormat info itag = some f ∧ f.url = some r.url
      ∧ r.filename = Ytdlp.buildFilename info f (prep info)
      ∧ ((prep info).data.contains '.' = true → r.filename = prep info)
      ∧ ((prep info).data.contains '.' = false →
          r.filename = (info.title.getD "video") ++ "." ++ (f.ext.getD "mp4")
          ∧ ∃ t, r.filename = t ++ "." ++ (f.ext.getD "mp4")) := by
  have hinner : Ytdlp.linkInner prep info itag = .ok r := by
    simp only [Ytdlp.get_download_link_blocking] at h
    revert h
    cases Ytdlp.linkInner prep info itag <;> simp
  unfold Ytdlp.linkInner at hinner
  split at hinner
  · rename_i f hsel
    split at hinner
    · rename_i u hurl
      injection hinner with h2
      subst h2
      refine ⟨f, hsel, hurl, rfl, ?_, ?_⟩
      · intro hc
        show Ytdlp.buildFilename info f (prep info) = prep info
        unfold Ytdlp.buildFilename
        rw [hc]
        rfl
      · intro hc
        have hb : Ytdlp.buildFilename info f (prep info)
            = (info.title.getD "video") ++ "." ++ (f.ext.getD "mp4") := by
          unfold Ytdlp.buildFilename
          rw [hc]
          rfl
        exact ⟨hb, info.title.getD "video", hb⟩
    · simp at hinner
  · simp at hinner

/-- C6 witness: a resolution whose templated name lacks a dot, exercising
the rebuild branch. -/
theorem C6_filename_construction_witness :
    Ytdlp.get_download_link_blocking Ytdlp.prepNoDot (.ok Ytdlp.demoInfo) "137"
        = .ok ⟨"https://cdn.example/v137", "DemoVideo.mp4"⟩
    ∧ ∃ f, Ytdlp.selectFormat Ytdlp.demoInfo "137" = some f
        ∧ f.url = some (Ytdlp.DLResult.mk "https://cdn.example/v137" "DemoVideo.mp4").url
        ∧ (Ytdlp.DLResult.mk "https://cdn.example/v137" "DemoVideo.mp4").filename
            = Ytdlp.buildFilename Ytdlp.demoInfo f (Ytdlp.prepNoDot Ytdlp.demoInfo)
        ∧ ((Ytdlp.prepNoDot Ytdlp.demoInfo).data.contains '.' = true →
            (Ytdlp.DLResult.mk "https://cdn.example/v137" "DemoVideo.mp4").filename
              = Ytdlp.prepNoDot Ytdlp.demoInfo)
        ∧ ((Ytdlp.prepNoDot Ytdlp.demoInfo).data.contains '.' = false →
            (Ytdlp.DLResult.mk "https://cdn.example/v137" "DemoVideo.mp4").filename
                = (Ytdlp.demoInfo.title.getD "video") ++ "." ++ (f.ext.getD "mp4")
            ∧ ∃ t, (Ytdlp.DLResult.mk "https://cdn.example/v137" "DemoVideo.mp4").filename
                = t ++ "." ++ (f.ext.getD "mp4")) :=
  ⟨rfl, C6_filename_construction Ytdlp.prepNoDot Ytdlp.demoInfo "137"
    (Ytdlp.DLResult.mk "https://cdn.example/v137" "DemoVideo.mp4") rfl⟩

/-- C7 counterexample: in the rutube service an empty `video_url` is not
rejected with a 400: the handler invokes the library (the response depends
on the library outcome) and on success the status is 200. -/
theorem C7_counterexample :
    Rutube.get_video_info (fun _ => .ok "AAAA") ""
        ≠ Rutube.get_video_info (fun _ => .ok "BBBB") ""
    ∧ (Rutube.get_video_info (fun _ => .ok "AAAA") "").statusCode = 200
    ∧ (Rutube.get_video_info (fun _ => .ok "AAAA") "").statusCode ≠ 400 :=
  ⟨by decide, rfl, by decide⟩

/-- C7 amended: in the yt-dlp and pytube services a request with an empty
required parameter is answered 400 without invoking the library (the
response is the same constant whatever the library outcome); the rutube
service performs no validation and invokes the library even for the empty
url. -/
theorem C7_empty_params_amended (prep : Ytdlp.YInfo → String)
    (libY : Except Ytdlp.LibErr Ytdlp.YInfo) (libP : Except String Pytube.YouTube)
    (libR : String → Except String String) (u itag : String) :
    Ytdlp.get_video_information libY ""
        = .error 400 "Параметр \x27url\x27 не может быть пустым."
    ∧ Ytdlp.get_download_link prep libY "" itag
        = .error 400 "Параметры \x27url\x27 и \x27itag\x27 обязательны."
    ∧ Ytdlp.get_download_link prep libY u ""
        = .error 400 "Параметры \x27url\x27 и \x27itag\x27 обязательны."
    ∧ Pytube.get_video_information libP ""
        = .error 400 "URL параметр не может быть пустым."
    ∧ Pytube.get_download_link libP "" itag
        = .error 400 "Параметры \x27url\x27 и \x27itag\x27 не могут быть пустыми."
    ∧ Pytube.get_download_link libP u ""
        = .error 400 "Параметры \x27url\x27 и \x27itag\x27 не могут быть пустыми."
    ∧ (∀ c, libR "" = .ok c →
        Rutube.get_video_info libR ""
          = .ok ⟨"video.mp4", c, "video.mp4", "video.mp4", "video/mp4"⟩) := by
  refine ⟨by simp [Ytdlp.get_video_information], by simp [Ytdlp.get_download_link],
    by simp [Ytdlp.get_download_link], by simp [Pytube.get_video_information],
    by simp [Pytube.get_download_link], by simp [Pytube.get_download_link], ?_⟩
  intro c hc
  simp [Rutube.get_video_info, hc]

/-- C7 amended witness: the amended statement at concrete inputs, the
rutube conjunct discharged with a concrete library outcome. -/
theorem C7_empty_params_amended_witness :
    Ytdlp.get_video_information (.ok Ytdlp.demoInfo) ""
        = .error 400 "Параметр \x27url\x27 не может быть пустым."
    ∧ ∃ r, Rutube.get_video_info (fun _ => .ok "CCCC") "" = .ok r
        ∧ r.writtenContent = "CCCC" := by
  have h := C7_empty_params_amended Ytdlp.prepDemo (.ok Ytdlp.demoInfo) (.ok Pytube.demoYt)
    (fun _ => .ok "CCCC") "https://youtu.be/v" "22"
  exact ⟨h.1, ⟨_, h.2.2.2.2.2.2 "CCCC" rfl, rfl⟩⟩

/-- C8: every pair of rutube video-info requests writes the downloaded
stream to the same fixed on-disk path `video.mp4` and serves the response
from that same path, whatever the two requested URLs are. -/
theorem C8_fixed_tempfile_shared (lib : String → Except String String)
    (u1 u2 : String) (r1 r2 : Rutube.RutubeFileResponse)
    (h1 : Rutube.get_video_info lib u1 = .ok r1)
    (h2 : Rutube.get_video_info lib u2 = .ok r2) :
    r1.writtenPath = "video.mp4" ∧ r2.writtenPath = r1.writtenPath
    ∧ r1.servedPath = r1.writtenPath ∧ r2.servedPath = r2.writtenPath
    ∧ r1.servedFilename = "video.mp4" := by
  unfold Rutube.get_video_info at h1 h2
  split at h1
  · simp at h1
  · split at h2
    · simp at h2
    · injection h1 with e1
      injection h2 with e2
      subst e1
      subst e2
      exact ⟨rfl, rfl, rfl, rfl, rfl⟩

/-- C8 witness: two concrete requests with different URLs. -/
theorem C8_fixed_tempfile_shared_witness :
    (Rutube.get_video_info (fun v => .ok v) "https://rutube.ru/a"
        = .ok ⟨"video.mp4", "https://rutube.ru/a", "video.mp4", "video.mp4", "video/mp4"⟩
      ∧ Rutube.get_video_info (fun v => .ok v) "https://rutube.ru/b"
        = .ok ⟨"video.mp4", "https://rutube.ru/b", "video.mp4", "video.mp4", "video/mp4"⟩)
    ∧ ((⟨"video.mp4", "https://rutube.ru/a", "video.mp4", "video.mp4", "video/mp4"⟩
          : Rutube.RutubeFileResponse).writtenPath = "video.mp4"
      ∧ (⟨"video.mp4", "https://rutube.ru/b", "video.mp4", "video.mp4", "video/mp4"⟩
          : Rutube.RutubeFileResponse).writtenPath
        = (⟨"video.mp4", "https://rutube.ru/a", "video.mp4", "video.mp4", "video/mp4"⟩
          : Rutube.RutubeFileResponse).writtenPath
      ∧ (⟨"video.mp4", "https://rutube.ru/a", "video.mp4", "video.mp4", "video/mp4"⟩
          : Rutube.RutubeFileResponse).servedPath
        = (⟨"video.mp4", "https://rutube.ru/a", "video.mp4", "video.mp4", "video/mp4"⟩
          : Rutube.RutubeFileResponse).writtenPath
      ∧ (⟨"video.mp4", "https://rutube.ru/b", "video.mp4", "video.mp4", "video/mp4"⟩
          : Rutube.RutubeFileResponse).servedPath
        = (⟨"video.mp4", "https://rutube.ru/b", "video.mp4", "video.mp4", "video/mp4"⟩
          : Rutube.RutubeFileResponse).writtenPath
      ∧ (⟨"video.mp4", "https://rutube.ru/a", "video.mp4", "video.mp4", "video/mp4"⟩
          : Rutube.RutubeFileResponse).servedFilename = "video.mp4") :=
  ⟨⟨rfl, rfl⟩, C8_fixed_tempfile_shared (fun v => .ok v) "https://rutube.ru/a"
    "https://rutube.ru/b" _ _ rfl rfl⟩

/-- C9: the yt-dlp video-info shaping is total over missing fields and
substitutes fixed placeholders: a format entry without `format_id` or `ext`
surfaces the literal `N/A`, a missing title surfaces `Без названия`, a
missing thumbnail the empty string, a missing duration `0`, all on a 200
response. -/
theorem C9_placeholder_shaping (info : Ytdlp.YInfo) (f : Ytdlp.YFormat) (url : String)
    (hu : url ≠ "") (hf : info.formats = some [f])
    (ht : info.title = none) (hth : info.thumbnail = none) (hd : info.duration = none)
    (hid : f.format_id = none) (he : f.ext = none) :
    Ytdlp.get_video_information (.ok info) url
      = .ok { title := "Без названия", thumbnail_url := "", duration := 0
              uploader := info.uploader, description := info.description
              available_formats := [Ytdlp.shapeFormat f] }
    ∧ (Ytdlp.shapeFormat f).itag = "N/A" ∧ (Ytdlp.shapeFormat f).ext = "N/A" := by
  have hne : Ytdlp.shapedFormats info ≠ [] := by simp [Ytdlp.shapedFormats, hf]
  refine ⟨?_, ?_, ?_⟩
  · unfold Ytdlp.get_video_information
    rw [if_neg hu, Ytdlp.ytdlpInfoBody_eq_ok info hne]
    simp [Ytdlp.shapedFormats, hf, ht, hth, hd]
  · simp [Ytdlp.shapeFormat, hid]
  · simp [Ytdlp.shapeFormat, he]

/-- C9 witness: the placeholders at a concrete bare input. -/
theorem C9_placeholder_shaping_witness :
    ("https://youtu.be/z" ≠ "" ∧ Ytdlp.bareInfo.formats = some [Ytdlp.bareFmt]
      ∧ Ytdlp.bareInfo.title = none ∧ Ytdlp.bareFmt.format_id = none)
    ∧ (Ytdlp.get_video_information (.ok Ytdlp.bareInfo) "https://youtu.be/z"
        = .ok { title := "Без названия", thumbnail_url := "", duration := 0
                uploader := Ytdlp.bareInfo.uploader
                description := Ytdlp.bareInfo.description
                available_formats := [Ytdlp.shapeFormat Ytdlp.bareFmt] }
      ∧ (Ytdlp.shapeFormat Ytdlp.bareFmt).itag = "N/A"
      ∧ (Ytdlp.shapeFormat Ytdlp.bareFmt).ext = "N/A") :=
  ⟨⟨by decide, rfl, rfl, rfl⟩,
    C9_placeholder_shaping Ytdlp.bareInfo Ytdlp.bareFmt "https://youtu.be/z"
      (by decide) rfl rfl rfl rfl rfl rfl⟩

/-- C10: the pytube download-link endpoint parses the itag with `int(itag)`
inside the generic `try`, so every non-empty, non-decimal itag string is
answered 500 with the generic server-error detail (never 400 or 404),
whatever the library outcome. -/
theorem C10_nonnumeric_itag_500 (lib : Except String Pytube.YouTube) (url itag : String)
    (hu : url ≠ "") (hi : itag ≠ "") (hp : Pytube.pyInt itag = none) :
    (Pytube.get_download_link lib url itag).statusCode = 500
    ∧ ∃ m, (Pytube.get_download_link lib url itag).detail?
        = some ("Ошибка сервера при получении ссылки: " ++ m) := by
  unfold Pytube.get_download_link
  rw [if_neg (by simp [hu, hi])]
  cases lib with
  | error m => exact ⟨rfl, m, rfl⟩
  | ok yt =>
      unfold Pytube.catchAll Pytube.linkTryBody
      rw [hp]
      exact ⟨rfl, Pytube.valueErrorMsg itag, rfl⟩

/-- C10 witness: a concrete non-numeric itag. -/
theorem C10_nonnumeric_itag_500_witness :
    ("https://youtu.be/q" ≠ "" ∧ "abc" ≠ "" ∧ Pytube.pyInt "abc" = none)
    ∧ ((Pytube.get_download_link (.ok Pytube.demoYt) "https://youtu.be/q" "abc").statusCode
        = 500
      ∧ ∃ m, (Pytube.get_download_link (.ok Pytube.demoYt) "https://youtu.be/q" "abc").detail?
          = some ("Ошибка сервера при получении ссылки: " ++ m)) :=
  ⟨⟨by decide, by decide, by rfl⟩,
    C10_nonnumeric_itag_500 (.ok Pytube.demoYt) "https://youtu.be/q" "abc"
      (by decide) (by decide) (by rfl)⟩
